import Mathlib

/-!
Shallow embedding of `src/plasmid_map_app.py` (plasmid-map generator).

The embedding covers the pure computational core of the program:

* `convert_r_color`  — the R-color alias table (source lines 49–56);
* `parse_genbank_file`'s per-feature normalisation relevant to promoter
  classification (source lines 111–117), as `is_promoter` over a `Feature`;
* `create_arrow_polygon` — the promoter arrow polygon (source lines 152–180);
* `create_plasmid_map` — region filtering, plot-range selection, stagger-level
  assignment and per-element geometry (source lines 182–346).

Numeric modelling: genomic coordinates are integers (`Int`); all derived
geometry is computed in `ℚ`, with the Python float literals `0.6`, `1.5` and
`4.5` rendered as the exact rationals `3/5`, `3/2` and `9/2`.  Python's
`str.lower` is modelled as ASCII lowering (`strLower`), and the substring test
`'promoter' in note` as `occursIn`.
-/

namespace PlasmidMap

/-- ASCII lowering of a single character (model of Python `str.lower` per
character: uppercase A–Z maps to a–z, everything else unchanged). -/
def lowerChar (c : Char) : Char :=
  if 65 ≤ c.toNat ∧ c.toNat ≤ 90 then Char.ofNat (c.toNat + 32) else c

/-- ASCII lowering of a string (model of Python `str.lower`). -/
def strLower (s : String) : String := ⟨s.data.map lowerChar⟩

/-- Is `pat` a prefix of the character list? (helper for the substring test). -/
def isPrefixChars : List Char → List Char → Bool
  | [], _ => true
  | _ :: _, [] => false
  | a :: as, b :: bs => a == b && isPrefixChars as bs

/-- Does `pat` occur contiguously in the character list? -/
def containsChars (pat : List Char) : List Char → Bool
  | [] => isPrefixChars pat []
  | b :: bs => isPrefixChars pat (b :: bs) || containsChars pat bs

/-- Model of Python's `pat in s` contiguous-substring test. -/
def occursIn (pat s : String) : Bool := containsChars pat.data s.data

/-- Source lines 49–56: `convert_r_color`.  A fixed three-entry alias
dictionary with `dict.get(color_name, color_name)` fallback: any key not in
the table is returned unchanged. -/
def convert_r_color (color_name : String) : String :=
  if color_name = "lightyellow2" then "lightyellow"
  else if color_name = "lightblue2" then "lightblue"
  else if color_name = "lightpink2" then "lightpink"
  else color_name

/-- One GenBank feature as consumed by the normalisation code in
`parse_genbank_file`: a type tag and a multi-valued qualifier map. -/
structure Feature where
  ftype : String
  qualifiers : List (String × List String)
deriving DecidableEq

/-- Qualifier lookup, `feature.qualifiers.get(key)`-style: first entry with the
given key, if any. -/
def getQual (f : Feature) (key : String) : Option (List String) :=
  (f.qualifiers.find? (fun p => p.1 == key)).map Prod.snd

/-- Source lines 112–114: the `note` string is the space-join of the values of
the `note` qualifier, lowercased; empty if the qualifier is absent. -/
def noteOf (f : Feature) : String :=
  match getQual f "note" with
  | some vs => strLower (String.intercalate " " vs)
  | none => ""

/-- Source line 117:
`is_promoter = (feature.type.lower() == 'regulatory' and 'promoter' in note)`. -/
def is_promoter (f : Feature) : Bool :=
  strLower f.ftype == "regulatory" && occursIn "promoter" (noteOf f)

/-- One row of the element table handed to `create_plasmid_map`
(columns `Element`, `Start`, `End`, `Color`, `Position`, `Strand`,
`IsPromoter`; the `End` column is the field `stop` since `end` is reserved). -/
structure Row where
  element : String
  start : Int
  stop : Int
  color : String
  position : String
  strand : Int
  isPromoter : Bool
deriving DecidableEq

/-- Render configuration: the `label_font`, `show_positions` and
`text_orientation` parameters of `create_plasmid_map`. -/
structure Config where
  label_font : Int
  show_positions : Bool
  text_orientation : String
deriving DecidableEq

/-- Source line 211: `box_height = 80`. -/
def box_height : ℚ := 80

/-- Source line 212: `text_distance = 120`. -/
def text_distance : ℚ := 120

/-- Source line 213: `text_gap = 30`. -/
def text_gap : ℚ := 30

/-- Source line 220: `num_levels = 3`. -/
def num_levels : Nat := 3

/-- Source lines 188–192: the pandas region mask — keep a row iff its start is
inside the region, or its end is inside the region, or it spans the region. -/
def regionKeep (region_start region_end : Int) (r : Row) : Bool :=
  (r.start ≥ region_start && r.start ≤ region_end) ||
  (r.stop ≥ region_start && r.stop ≤ region_end) ||
  (r.start ≤ region_start && r.stop ≥ region_end)

/-- Insert a row into a list sorted by `Start`, before any row of equal start
(stable insertion). -/
def insertByStart (r : Row) : List Row → List Row
  | [] => [r]
  | x :: xs => if r.start ≤ x.start then r :: x :: xs else x :: insertByStart r xs

/-- Source line 218: `df.sort_values('Start')` — stable sort by start. -/
def sortByStart : List Row → List Row
  | [] => []
  | r :: rs => insertByStart r (sortByStart rs)

/-- Source lines 222–227: the level-assignment loop over the start-sorted rows,
recording `(element, idx % num_levels)` in iteration order. -/
def assignLevelsAux : Nat → List Row → List (String × Nat)
  | _, [] => []
  | i, r :: rs => (r.element, i % num_levels) :: assignLevelsAux (i + 1) rs

/-- The `element_levels` association list built from the start-sorted rows. -/
def assignLevels (sorted : List Row) : List (String × Nat) :=
  assignLevelsAux 0 sorted

/-- Python-dict semantics of `element_levels[element] = level` followed by
`element_levels.get(element, 0)`: the LAST write for a name wins, and an
absent name yields 0. -/
def lookupLevel (levels : List (String × Nat)) (name : String) : Nat :=
  match levels.reverse.find? (fun p => p.1 == name) with
  | some p => p.2
  | none => 0

/-- Source lines 152–180: `create_arrow_polygon` — the seven vertices of the
promoter arrow, for `direction = 'right'` or (any other string) left. -/
def create_arrow_polygon (x_center y_center width height : ℚ)
    (direction : String) : List (ℚ × ℚ) :=
  if direction = "right" then
    [ (x_center - width / 2, y_center - height / 2),
      (x_center + width / 3, y_center - height / 2),
      (x_center + width / 3, y_center - height / (3/2)),
      (x_center + width / 2, y_center),
      (x_center + width / 3, y_center + height / (3/2)),
      (x_center + width / 3, y_center + height / 2),
      (x_center - width / 2, y_center + height / 2) ]
  else
    [ (x_center + width / 2, y_center - height / 2),
      (x_center - width / 3, y_center - height / 2),
      (x_center - width / 3, y_center - height / (3/2)),
      (x_center - width / 2, y_center),
      (x_center - width / 3, y_center + height / (3/2)),
      (x_center - width / 3, y_center + height / 2),
      (x_center + width / 2, y_center + height / 2) ]

/-- Horizontal extent of the arrowhead (tip region) of an arrow polygon:
the signed distance from the shoulder vertex (index 2) to the tip vertex
(index 3), oriented by the arrow direction. -/
def arrowheadExtent (pts : List (ℚ × ℚ)) (direction : String) : ℚ :=
  match pts with
  | _ :: _ :: p2 :: p3 :: _ =>
      if direction = "right" then p3.1 - p2.1 else p2.1 - p3.1
  | _ => 0

/-- Source lines 252–269: the box-side y coordinate,
`box_y = ±box_height / 2` by `Position == "Up"`. -/
def boxY (r : Row) : ℚ :=
  if r.position = "Up" then box_height / 2 else -(box_height / 2)

/-- Source line 250: the stagger multiplier `1 + level * 0.6` under horizontal
text orientation; the vertical branch uses the bare `text_distance`,
i.e. multiplier 1. -/
def levelMultiplier (cfg : Config) (levels : List (String × Nat)) (r : Row) : ℚ :=
  if cfg.text_orientation = "horizontal" then
    1 + (lookupLevel levels r.element : ℚ) * (3/5)
  else 1

/-- Source lines 252–269: the connector's label-end y coordinate,
`±(box_height + text_distance * multiplier)` by side. -/
def lineEndY (cfg : Config) (levels : List (String × Nat)) (r : Row) : ℚ :=
  if r.position = "Up" then
    box_height + text_distance * levelMultiplier cfg levels r
  else
    -box_height - text_distance * levelMultiplier cfg levels r

/-- Source lines 252–269: the label anchor y coordinate,
`line_end_y ± text_gap` by side. -/
def textY (cfg : Config) (levels : List (String × Nat)) (r : Row) : ℚ :=
  if r.position = "Up" then lineEndY cfg levels r + text_gap
  else lineEndY cfg levels r - text_gap

/-- A drawn shape: an axis-aligned rectangle `(x, y, width, height)`
(matplotlib `Rectangle`) or an arrow polygon (vertex list). -/
inductive ShapePrim where
  | rect (x y w h : ℚ)
  | arrowPoly (pts : List (ℚ × ℚ))
deriving DecidableEq

/-- The x coordinates spanned by a shape: both rectangle edges, or every
polygon vertex. -/
def ShapePrim.xs : ShapePrim → List ℚ
  | rect x _ w _ => [x, x + w]
  | arrowPoly pts => pts.map Prod.fst

/-- Source lines 271–284: promoters get
`create_arrow_polygon(center, box_y, width, box_height, dir)` with
`dir = 'right' if strand >= 0 else 'left'`; everything else gets
`Rectangle((start, box_y - box_height/2), width, box_height)`. -/
def elemShape (r : Row) : ShapePrim :=
  let center : ℚ := ((r.start : ℚ) + (r.stop : ℚ)) / 2
  let width : ℚ := (r.stop : ℚ) - (r.start : ℚ)
  if r.isPromoter then
    ShapePrim.arrowPoly (create_arrow_polygon center (boxY r) width box_height
      (if 0 ≤ r.strand then "right" else "left"))
  else
    ShapePrim.rect (r.start : ℚ) (boxY r - box_height / 2) width box_height

/-- The geometry emitted for one element: its shape, the connector segment
from `(connector_x, box_y)` to `(connector_x, line_end_y)`, the label anchor,
the label and size texts, and the resolved face color. -/
structure ElemGeom where
  shape : ShapePrim
  connector_x : ℚ
  box_y : ℚ
  line_end_y : ℚ
  text_y : ℚ
  label : String
  size_label : String
  face_color : String
deriving DecidableEq

/-- Source lines 229–333: the per-element geometry of the render loop. -/
def elemGeom (cfg : Config) (levels : List (String × Nat)) (r : Row) : ElemGeom where
  shape := elemShape r
  connector_x := ((r.start : ℚ) + (r.stop : ℚ)) / 2
  box_y := boxY r
  line_end_y := lineEndY cfg levels r
  text_y := textY cfg levels r
  label := r.element
  size_label :=
    if cfg.show_positions then " (" ++ toString (r.stop - r.start + 1) ++ " bp)"
    else ""
  face_color := convert_r_color r.color

/-- Source lines 335–342: the y half-extent of the viewport. -/
def yMax (cfg : Config) : ℚ :=
  if cfg.text_orientation = "horizontal" then
    max (box_height + text_distance * (9/2) + text_gap + 100) 700
  else
    max (box_height + text_distance + text_gap + 100) 400

/-- The abstract scene produced by one render: the baseline from `plot_start`
to `plot_end` at y = 0, the per-element geometry in input order, and the
viewport limits. -/
structure Scene where
  plot_start : Int
  plot_end : Int
  elems : List ElemGeom
  xlim : ℚ × ℚ
  ylim : ℚ × ℚ
deriving DecidableEq

/-- Source lines 206–346 after filtering: build the scene for the (already
region-filtered) rows and the chosen plot range. -/
def buildScene (df : List Row) (plot_start plot_end : Int) (cfg : Config) : Scene where
  plot_start := plot_start
  plot_end := plot_end
  elems := df.map (elemGeom cfg (assignLevels (sortByStart df)))
  xlim := ((plot_start : ℚ) - 500, (plot_end : ℚ) + 500)
  ylim := (-(yMax cfg), yMax cfg)

/-- Source lines 182–346: `create_plasmid_map`.  When both region bounds are
given, filter the rows by the overlap mask and return `none` (Python `None`)
if nothing is left, else render over `[region_start, region_end]`; otherwise
render all rows over `[0, plasmid_length]`. -/
def create_plasmid_map (df : List Row) (plasmid_length : Int) (cfg : Config)
    (region_start region_end : Option Int) : Option Scene :=
  match region_start, region_end with
  | some rs, some re =>
      let filtered := df.filter (regionKeep rs re)
      if filtered.isEmpty then none
      else some (buildScene filtered rs re cfg)
  | _, _ => some (buildScene df 0 plasmid_length cfg)

/-- A plain rectangle row (forward strand, Up, pastel color, not a promoter). -/
def mkRow (name : String) (s e : Int) : Row :=
  ⟨name, s, e, "lightblue", "Up", 1, false⟩

/-- The app's default configuration: font 11, sizes off, horizontal labels. -/
def cfgH : Config := ⟨11, false, "horizontal"⟩

/-- Vertical-label configuration. -/
def cfgV : Config := ⟨11, false, "vertical"⟩

/-- A point annotation (`start == end`), e.g. a single-base mutation. -/
def rowPoint : Row := ⟨"SNP", 100, 100, "lightblue", "Up", 1, false⟩

/-- First of two rows sharing the display name `dup`. -/
def rowDup0 : Row := ⟨"dup", 0, 10, "lightblue", "Up", 1, false⟩

/-- Second of two rows sharing the display name `dup`. -/
def rowDup1 : Row := ⟨"dup", 100, 200, "lightblue", "Up", 1, false⟩

/-- Two rows sharing the display name `dup`, at starts 0 and 100. -/
def dfDup : List Row := [rowDup0, rowDup1]

/-- Four rows with distinct names, starts strictly increasing. -/
def df4 : List Row :=
  [mkRow "pA" 100 200, mkRow "pB" 300 400, mkRow "pC" 500 600, mkRow "pD" 700 800]

/-- A regulatory feature whose only promoter evidence is its `label`
qualifier (no `note` qualifier at all). -/
def featLabelPromoter : Feature :=
  ⟨"regulatory", [("label", ["CaMV 35S promoter"])]⟩

/-- A regulatory feature carrying `promoter` in its `note` qualifier. -/
def featNotePromoter : Feature :=
  ⟨"Regulatory", [("note", ["minimal", "Promoter region"])]⟩

/-- C4: for region `[R0,R1]` and element `[s,e]`, the element survives the
region filter iff its start is within the region, or its end is within the
region, or it fully spans the region — an overlap test, not containment. -/
theorem region_overlap_filter (rs re : Int) (r : Row) (df : List Row) :
    r ∈ df.filter (regionKeep rs re) ↔
      r ∈ df ∧
        ((rs ≤ r.start ∧ r.start ≤ re) ∨ (rs ≤ r.stop ∧ r.stop ≤ re) ∨
          (r.start ≤ rs ∧ re ≤ r.stop)) := by
  simp only [List.mem_filter, regionKeep, Bool.or_eq_true, Bool.and_eq_true,
    decide_eq_true_eq, ge_iff_le]
  tauto

/-- C5 counterexample: `convert_r_color` is only the fixed three-entry alias
table — `darkorchid3`, `gold4` and `xyz123` all come back unchanged, contrary
to the claimed digit-stripping/ink-default fallback tiers. -/
theorem color_fallback_counterexample :
    convert_r_color "darkorchid3" = "darkorchid3" ∧ "darkorchid3" ≠ "darkorchid" ∧
    convert_r_color "gold4" = "gold4" ∧ "gold4" ≠ "goldenrod" ∧
    convert_r_color "xyz123" = "xyz123" := by
  refine ⟨by decide, by decide, by decide, by decide, by decide⟩

/-- C5 amended: color normalization is total and never fails, but its only
non-identity cases are the three legacy aliases `lightyellow2`, `lightblue2`,
`lightpink2`; every other token is returned unchanged. -/
theorem convert_r_color_alias_table (s : String)
    (h1 : s ≠ "lightyellow2") (h2 : s ≠ "lightblue2") (h3 : s ≠ "lightpink2") :
    convert_r_color s = s ∧
    convert_r_color "lightyellow2" = "lightyellow" ∧
    convert_r_color "lightblue2" = "lightblue" ∧
    convert_r_color "lightpink2" = "lightpink" := by
  refine ⟨?_, by decide, by decide, by decide⟩
  simp [convert_r_color, h1, h2, h3]

/-- C5 witness: the amended alias-table behavior at the token `salmon`. -/
theorem convert_r_color_alias_table_witness :
    convert_r_color "salmon" = "salmon" ∧
    convert_r_color "lightyellow2" = "lightyellow" ∧
    convert_r_color "lightblue2" = "lightblue" ∧
    convert_r_color "lightpink2" = "lightpink" :=
  convert_r_color_alias_table "salmon" (by decide) (by decide) (by decide)

/-- C8: whenever the region filter leaves zero rows, `create_plasmid_map`
returns the no-scene result (`none`) — no extent computation, no geometry. -/
theorem empty_region_returns_none (df : List Row) (len : Int) (cfg : Config)
    (rs re : Int) (h : df.filter (regionKeep rs re) = []) :
    create_plasmid_map df len cfg (some rs) (some re) = none := by
  simp [create_plasmid_map, h]

/-- C8 witness: a single element at `[100,200]` against region `[500,600]`
is filtered out and the render returns `none`. -/
theorem empty_region_returns_none_witness :
    create_plasmid_map [mkRow "GeneX" 100 200] 1000 cfgH (some 500) (some 600)
      = none :=
  empty_region_returns_none [mkRow "GeneX" 100 200] 1000 cfgH 500 600 (by decide)

/-- C9: rendering is deterministic — equal element lists and configurations
produce identical scenes. -/
theorem render_deterministic (df df2 : List Row) (len len2 : Int)
    (cfg cfg2 : Config) (rs rs2 re re2 : Option Int)
    (h1 : df = df2) (h2 : len = len2) (h3 : cfg = cfg2)
    (h4 : rs = rs2) (h5 : re = re2) :
    create_plasmid_map df len cfg rs re = create_plasmid_map df2 len2 cfg2 rs2 re2 := by
  subst h1 h2 h3 h4 h5
  rfl

/-- C9 witness: determinism at a concrete invocation. -/
theorem render_deterministic_witness :
    create_plasmid_map [mkRow "GeneX" 100 300] 1000 cfgH none none
      = create_plasmid_map [mkRow "GeneX" 100 300] 1000 cfgH none none :=
  render_deterministic [mkRow "GeneX" 100 300] [mkRow "GeneX" 100 300]
    1000 1000 cfgH cfgH none none none none rfl rfl rfl rfl rfl

/-- C1 counterexample: the no-region extent ignores the elements entirely.
One and the same element list (span `[100,300]`) yields extent `[0,2000]` at
plasmid length 2000 but `[0,5000]` at plasmid length 5000, so the extent is
not `[min(starts,ends) − margin, max(starts,ends) + margin]` for any fixed
margin, and its left edge is 0, not `100 − margin`. -/
theorem plot_range_ignores_elements :
    (create_plasmid_map [mkRow "GeneX" 100 300] 2000 cfgH none none).map
        Scene.plot_end = some 2000 ∧
    (create_plasmid_map [mkRow "GeneX" 100 300] 5000 cfgH none none).map
        Scene.plot_end = some 5000 ∧
    (2000 : Int) ≠ 5000 ∧
    (create_plasmid_map [mkRow "GeneX" 100 300] 2000 cfgH none none).map
        Scene.plot_start = some 0 := by
  refine ⟨rfl, rfl, by decide, rfl⟩

/-- C1 amended: with no region configured the baseline extent is exactly
`[0, plasmid_length]` (independent of the elements); with a region configured
(and a non-empty filtered set) it is exactly the region bounds. -/
theorem plot_range_policy (df : List Row) (len : Int) (cfg : Config) (rs re : Int)
    (h : df.filter (regionKeep rs re) ≠ []) :
    ((create_plasmid_map df len cfg none none).map Scene.plot_start = some 0 ∧
     (create_plasmid_map df len cfg none none).map Scene.plot_end = some len) ∧
    ((create_plasmid_map df len cfg (some rs) (some re)).map Scene.plot_start
        = some rs ∧
     (create_plasmid_map df len cfg (some rs) (some re)).map Scene.plot_end
        = some re) := by
  refine ⟨⟨rfl, rfl⟩, ?_⟩
  cases hf : df.filter (regionKeep rs re) with
  | nil => exact absurd hf h
  | cons a l =>
      constructor <;> simp [create_plasmid_map, hf, buildScene]

/-- C1 witness: amended extent policy at a concrete input — element
`[100,300]`, length 2000, region `[150,250]` (the element spans it). -/
theorem plot_range_policy_witness :
    ((create_plasmid_map [mkRow "GeneX" 100 300] 2000 cfgH none none).map
        Scene.plot_start = some 0 ∧
     (create_plasmid_map [mkRow "GeneX" 100 300] 2000 cfgH none none).map
        Scene.plot_end = some 2000) ∧
    ((create_plasmid_map [mkRow "GeneX" 100 300] 2000 cfgH (some 150)
        (some 250)).map Scene.plot_start = some 150 ∧
     (create_plasmid_map [mkRow "GeneX" 100 300] 2000 cfgH (some 150)
        (some 250)).map Scene.plot_end = some 250) :=
  plot_range_policy [mkRow "GeneX" 100 300] 2000 cfgH 150 250 (by decide)

/-- C3 counterexample: for an arrow of width 1000 the arrowhead's horizontal
extent is `1000/6 = 500/3`, not the claimed `min(40, 1000 × 0.3) = 40`. -/
theorem arrowhead_cap_counterexample :
    arrowheadExtent (create_arrow_polygon 0 0 1000 80 "right") "right" = 500 / 3 ∧
    (500 / 3 : ℚ) ≠ 40 ∧
    min (40 : ℚ) (1000 * (3/10)) = 40 := by
  refine ⟨?_, by norm_num, by norm_num⟩
  norm_num [create_arrow_polygon, arrowheadExtent]

/-- C3 amended: for either direction the arrowhead's horizontal extent is
exactly one sixth of the element width — in particular it never exceeds 30%
of a nonnegative width.  There is no fixed maximum point width. -/
theorem arrowhead_extent_sixth (c y w h : ℚ) (dir : String) (hw : 0 ≤ w) :
    arrowheadExtent (create_arrow_polygon c y w h dir) dir = w / 6 ∧
    w / 6 ≤ (3/10) * w := by
  constructor
  · by_cases hd : dir = "right" <;>
      simp [create_arrow_polygon, arrowheadExtent, hd] <;> ring
  · linarith

/-- C3 witness: an arrow of width 100 has arrowhead extent `100/6 ≤ 30`. -/
theorem arrowhead_extent_sixth_witness :
    arrowheadExtent (create_arrow_polygon 0 0 100 80 "right") "right" = 100 / 6 ∧
    (100 : ℚ) / 6 ≤ (3/10) * 100 :=
  arrowhead_extent_sixth 0 0 100 80 "right" (by norm_num)

/-- C6 counterexample: a `regulatory` feature whose `label` qualifier contains
`promoter` but which has no `note` qualifier is NOT classified as a promoter —
the classifier consults only the `note` key, not
`standard_name`/`regulatory_class`/`label`. -/
theorem promoter_label_counterexample :
    is_promoter featLabelPromoter = false ∧
    strLower featLabelPromoter.ftype = "regulatory" ∧
    occursIn "promoter" (strLower (String.intercalate " " ["CaMV 35S promoter"]))
      = true := by
  refine ⟨by decide, by decide, by decide⟩

/-- C6 amended: `isPromoter` is true iff the type tag case-insensitively
equals `regulatory` AND the space-joined values of the `note` qualifier alone
contain `promoter` case-insensitively; features agreeing on type tag and
`note` qualifier always classify identically, whatever their other
qualifiers. -/
theorem is_promoter_note_only (f g : Feature)
    (ht : f.ftype = g.ftype) (hn : getQual f "note" = getQual g "note") :
    (is_promoter f = true ↔
      strLower f.ftype = "regulatory" ∧ occursIn "promoter" (noteOf f) = true) ∧
    is_promoter f = is_promoter g := by
  constructor
  · simp [is_promoter]
  · simp [is_promoter, noteOf, ht, hn]

/-- C6 witness: the amended classifier at a concrete `note`-carrying feature. -/
theorem is_promoter_note_only_witness :
    (is_promoter featNotePromoter = true ↔
      strLower featNotePromoter.ftype = "regulatory" ∧
      occursIn "promoter" (noteOf featNotePromoter) = true) ∧
    is_promoter featNotePromoter = is_promoter featNotePromoter :=
  is_promoter_note_only featNotePromoter featNotePromoter rfl rfl

/-- C2 counterexample: the point element `[100,100]` is drawn as the
zero-width rectangle `Rectangle((100, 0), 0, 80)` — its geometry spans width
0, not a fixed positive minimum width `W`; no widening constant exists in the
code. -/
theorem point_widening_counterexample :
    (elemGeom cfgH [] rowPoint).shape = ShapePrim.rect 100 0 0 80 ∧
    ((elemGeom cfgH [] rowPoint).shape).xs = [100, 100] := by
  constructor
  · show elemShape rowPoint = _
    simp [elemShape, boxY, rowPoint, box_height]
  · show (elemShape rowPoint).xs = _
    simp [elemShape, boxY, rowPoint, box_height, ShapePrim.xs]

/-- C2 amended: no degenerate-interval widening is performed — for any element
with `start == end`, every x coordinate of the emitted shape (rectangle or
arrow polygon) equals the point coordinate itself, i.e. the geometry spans
exactly width 0 at the original point. -/
theorem point_element_zero_span (cfg : Config) (levels : List (String × Nat))
    (r : Row) (hp : r.start = r.stop) :
    ((elemGeom cfg levels r).shape).xs
      = List.replicate ((elemGeom cfg levels r).shape).xs.length ((r.start : ℚ)) := by
  have hq : (r.stop : ℚ) = (r.start : ℚ) := by rw [hp]
  show (elemShape r).xs = List.replicate (elemShape r).xs.length _
  unfold elemShape
  by_cases hpr : r.isPromoter = true
  · rw [if_pos hpr]
    by_cases hs : (0 : Int) ≤ r.strand
    · rw [if_pos hs]
      simp [create_arrow_polygon, ShapePrim.xs, hq, List.replicate]
    · rw [if_neg hs]
      simp [create_arrow_polygon, ShapePrim.xs, hq, List.replicate]
  · rw [if_neg hpr]
    simp [ShapePrim.xs, hq, List.replicate]

/-- C2 witness: the zero-span fact at the concrete point element `[100,100]`. -/
theorem point_element_zero_span_witness :
    ((elemGeom cfgV [] rowPoint).shape).xs
      = List.replicate ((elemGeom cfgV [] rowPoint).shape).xs.length
          ((rowPoint.start : ℚ)) :=
  point_element_zero_span cfgV [] rowPoint rfl

/-- The keys recorded by the level-assignment loop are exactly the element
names, in order. -/
theorem assignLevelsAux_fst (k : Nat) (l : List Row) :
    (assignLevelsAux k l).map Prod.fst = l.map Row.element := by
  induction l generalizing k with
  | nil => rfl
  | cons r rs ih => simp [assignLevelsAux, ih]

/-- If no row of `l` carries the name `nm`, the level table built from `l`
has no entry for `nm`. -/
theorem find_level_eq_none (k : Nat) (l : List Row) (nm : String)
    (h : ∀ x ∈ l, x.element ≠ nm) :
    (assignLevelsAux k l).reverse.find? (fun p => p.1 == nm) = none := by
  apply List.find?_eq_none.mpr
  intro x hx
  have hx2 : x ∈ assignLevelsAux k l := List.mem_reverse.mp hx
  have hx3 : x.1 ∈ (assignLevelsAux k l).map Prod.fst :=
    List.mem_map_of_mem _ hx2
  rw [assignLevelsAux_fst] at hx3
  obtain ⟨y, hy, hyx⟩ := List.mem_map.mp hx3
  simp only [beq_iff_eq]
  rw [← hyx]
  exact h y hy

/-- Dict-overwrite semantics: when no row after `r` carries `r`'s name, the
level table's effective entry for `r`'s name is the one written at `r`'s own
iteration, index `k + l₁.length`. -/
theorem find_level_append (k : Nat) (l₁ : List Row) (r : Row) (l₂ : List Row)
    (h : ∀ x ∈ l₂, x.element ≠ r.element) :
    (assignLevelsAux k (l₁ ++ r :: l₂)).reverse.find? (fun p => p.1 == r.element)
      = some (r.element, (k + l₁.length) % num_levels) := by
  induction l₁ generalizing k with
  | nil =>
      simp only [List.nil_append, assignLevelsAux, List.reverse_cons]
      rw [List.find?_append, find_level_eq_none (k+1) l₂ r.element h]
      simp [List.find?]
  | cons a l₁ ih =>
      simp only [List.cons_append, assignLevelsAux, List.reverse_cons,
        List.append_eq]
      rw [List.find?_append, ih (k+1)]
      have hlen : k + 1 + l₁.length = k + (a :: l₁).length := by
        simp only [List.length_cons]
        omega
      rw [hlen]
      rfl

/-- The level used for a row with no later same-named row in the sorted list
is its own sorted index mod `num_levels`. -/
theorem lookupLevel_last (l₁ : List Row) (r : Row) (l₂ : List Row)
    (h : ∀ x ∈ l₂, x.element ≠ r.element) :
    lookupLevel (assignLevels (l₁ ++ r :: l₂)) r.element
      = l₁.length % num_levels := by
  unfold lookupLevel assignLevels
  rw [find_level_append 0 l₁ r l₂ h]
  simp

/-- A name carried by no row falls back to level 0. -/
theorem lookupLevel_absent (l : List Row) (nm : String)
    (h : ∀ x ∈ l, x.element ≠ nm) :
    lookupLevel (assignLevels l) nm = 0 := by
  unfold lookupLevel assignLevels
  rw [find_level_eq_none 0 l nm h]

/-- Stable insertion produces a permutation of consing. -/
theorem insertByStart_perm (r : Row) (l : List Row) :
    (insertByStart r l).Perm (r :: l) := by
  induction l with
  | nil => exact List.Perm.refl _
  | cons x xs ih =>
      simp only [insertByStart]
      split
      · exact List.Perm.refl _
      · exact (ih.cons x).trans (List.Perm.swap r x xs)

/-- The start-sort is a permutation of its input. -/
theorem sortByStart_perm (l : List Row) : (sortByStart l).Perm l := by
  induction l with
  | nil => exact List.Perm.refl _
  | cons r rs ih => exact (insertByStart_perm r (sortByStart rs)).trans (ih.cons r)

/-- Decompose a list at index `i` into prefix, element and suffix. -/
theorem list_get_decomp (l : List Row) (i : Nat) (hi : i < l.length) :
    l = l.take i ++ l.get ⟨i, hi⟩ :: l.drop (i + 1) := by
  conv_lhs => rw [← List.take_append_drop i l]
  rw [List.drop_eq_getElem_cons hi]
  simp [List.get_eq_getElem]

/-- With pairwise-distinct names, no row after index `i` carries the name of
the row at index `i`. -/
theorem nodup_later_names (l : List Row) (hnd : (l.map Row.element).Nodup)
    (i : Nat) (hi : i < l.length) :
    ∀ x ∈ l.drop (i + 1), x.element ≠ (l.get ⟨i, hi⟩).element := by
  intro x hx heq
  have hnd2 : ((l.take i ++ l.get ⟨i, hi⟩ :: l.drop (i + 1)).map Row.element).Nodup := by
    rw [← list_get_decomp l i hi]
    exact hnd
  rw [List.map_append, List.map_cons] at hnd2
  have h3 := hnd2.of_append_right
  have h4 := (List.nodup_cons.mp h3).1
  exact h4 (heq ▸ List.mem_map_of_mem Row.element hx)

/-- With pairwise-distinct names, the level used for the row at sorted index
`i` is `i % num_levels`. -/
theorem lookupLevel_sorted_nodup (l : List Row) (hnd : (l.map Row.element).Nodup)
    (i : Nat) (hi : i < l.length) :
    lookupLevel (assignLevels l) (l.get ⟨i, hi⟩).element = i % num_levels := by
  have hdecomp := list_get_decomp l i hi
  have hlast := nodup_later_names l hnd i hi
  calc lookupLevel (assignLevels l) (l.get ⟨i, hi⟩).element
      = lookupLevel (assignLevels (l.take i ++ l.get ⟨i, hi⟩ :: l.drop (i + 1)))
          (l.get ⟨i, hi⟩).element := by rw [← hdecomp]
    _ = (l.take i).length % num_levels := lookupLevel_last _ _ _ hlast
    _ = i % num_levels := by
          rw [List.length_take, Nat.min_eq_left (Nat.le_of_lt hi)]

/-- C7 amended: under horizontal orientation, with pairwise-distinct display
names, the element at start-sorted index `i` uses stagger level
`i % num_levels` (independently of its side), and its connector label-end sits
at `±(box_height + text_distance × (1 + (i % 3) × 0.6))` by side; under any
non-horizontal orientation the stagger multiplier is 1 (no staggering). -/
theorem stagger_levels_distinct_names (df : List Row) (cfg : Config)
    (hh : cfg.text_orientation = "horizontal")
    (hnd : (df.map Row.element).Nodup)
    (i : Nat) (hi : i < (sortByStart df).length) :
    lookupLevel (assignLevels (sortByStart df))
        ((sortByStart df).get ⟨i, hi⟩).element = i % num_levels ∧
    (((sortByStart df).get ⟨i, hi⟩).position = "Up" →
      lineEndY cfg (assignLevels (sortByStart df)) ((sortByStart df).get ⟨i, hi⟩)
        = box_height + text_distance * (1 + ((i % num_levels : Nat) : ℚ) * (3/5))) ∧
    (¬ ((sortByStart df).get ⟨i, hi⟩).position = "Up" →
      lineEndY cfg (assignLevels (sortByStart df)) ((sortByStart df).get ⟨i, hi⟩)
        = -box_height - text_distance * (1 + ((i % num_levels : Nat) : ℚ) * (3/5))) ∧
    (∀ cfg2 levels2 r2, ¬ cfg2.text_orientation = "horizontal" →
      levelMultiplier cfg2 levels2 r2 = 1) := by
  have hnds : ((sortByStart df).map Row.element).Nodup :=
    ((sortByStart_perm df).map Row.element).nodup_iff.mpr hnd
  have hlv := lookupLevel_sorted_nodup (sortByStart df) hnds i hi
  refine ⟨hlv, ?_, ?_, ?_⟩
  · intro hup
    unfold lineEndY levelMultiplier
    rw [if_pos hup, if_pos hh, hlv]
  · intro hdown
    unfold lineEndY levelMultiplier
    rw [if_neg hdown, if_pos hh, hlv]
  · intro cfg2 levels2 r2 h2
    unfold levelMultiplier
    rw [if_neg h2]

/-- C7 witness: with four distinct-named rows at increasing starts, the row at
sorted index 3 uses level `3 % 3` — the same level as sorted index 0 — and the
corresponding geometry formulas hold. -/
theorem stagger_levels_distinct_names_witness :
    lookupLevel (assignLevels (sortByStart df4))
        ((sortByStart df4).get ⟨3, by decide⟩).element = 3 % num_levels ∧
    (((sortByStart df4).get ⟨3, by decide⟩).position = "Up" →
      lineEndY cfgH (assignLevels (sortByStart df4))
          ((sortByStart df4).get ⟨3, by decide⟩)
        = box_height + text_distance * (1 + ((3 % num_levels : Nat) : ℚ) * (3/5))) ∧
    (¬ ((sortByStart df4).get ⟨3, by decide⟩).position = "Up" →
      lineEndY cfgH (assignLevels (sortByStart df4))
          ((sortByStart df4).get ⟨3, by decide⟩)
        = -box_height - text_distance * (1 + ((3 % num_levels : Nat) : ℚ) * (3/5))) ∧
    (∀ cfg2 levels2 r2, ¬ cfg2.text_orientation = "horizontal" →
      levelMultiplier cfg2 levels2 r2 = 1) :=
  stagger_levels_distinct_names df4 cfgH rfl (by decide) 3 (by decide)

/-- C7 counterexample: with two same-named rows (`dup` at starts 0 and 100,
both Up, horizontal text), the row at sorted index 0 does NOT use its assigned
level `0 % 3 = 0`: the later duplicate overwrites the name-keyed entry, so its
label-end lands at `80 + 120 × 1.6 = 272` instead of the claimed
`80 + 120 × 1.0 = 200`. -/
theorem stagger_name_collision_counterexample :
    lineEndY cfgH (assignLevels (sortByStart dfDup))
        ((sortByStart dfDup).get ⟨0, by decide⟩) = 272 ∧
    (272 : ℚ) ≠ 200 ∧
    lookupLevel (assignLevels (sortByStart dfDup))
        ((sortByStart dfDup).get ⟨0, by decide⟩).element = 1 := by
  have hl : lookupLevel (assignLevels (sortByStart dfDup)) "dup" = 1 := by decide
  refine ⟨?_, by norm_num, ?_⟩
  · show lineEndY cfgH (assignLevels (sortByStart dfDup)) rowDup0 = 272
    unfold lineEndY levelMultiplier
    rw [if_pos (show rowDup0.position = "Up" from rfl),
      if_pos (show cfgH.text_orientation = "horizontal" from rfl),
      show rowDup0.element = "dup" from rfl, hl]
    norm_num [box_height, text_distance]
  · show lookupLevel (assignLevels (sortByStart dfDup)) rowDup0.element = 1
    rw [show rowDup0.element = "dup" from rfl]
    exact hl

/-- C10: stagger levels are stored keyed by display name alone — two rows with
equal names always use the same level, namely the one assigned to the last
same-named row in start-sorted order, and a name absent from the table falls
back to level 0. -/
theorem stagger_keyed_by_name (df : List Row) (r1 r2 r : Row)
    (l₁ l₂ : List Row) (nm : String)
    (h12 : r1.element = r2.element)
    (hdec : sortByStart df = l₁ ++ r :: l₂)
    (hlast : ∀ x ∈ l₂, x.element ≠ r.element)
    (habs : ∀ x ∈ df, x.element ≠ nm) :
    lookupLevel (assignLevels (sortByStart df)) r1.element
        = lookupLevel (assignLevels (sortByStart df)) r2.element ∧
    lookupLevel (assignLevels (sortByStart df)) r.element
        = l₁.length % num_levels ∧
    lookupLevel (assignLevels (sortByStart df)) nm = 0 := by
  refine ⟨by rw [h12], ?_, ?_⟩
  · rw [hdec]
    exact lookupLevel_last l₁ r l₂ hlast
  · exact lookupLevel_absent _ nm (fun x hx => habs x ((sortByStart_perm df).subset hx))

/-- C10 witness: the two `dup` rows use one shared level — the level `1 % 3`
assigned to the later (sorted-last) duplicate — and the absent name `missing`
falls back to level 0. -/
theorem stagger_keyed_by_name_witness :
    lookupLevel (assignLevels (sortByStart dfDup)) rowDup0.element
        = lookupLevel (assignLevels (sortByStart dfDup)) rowDup1.element ∧
    lookupLevel (assignLevels (sortByStart dfDup)) rowDup1.element
        = [rowDup0].length % num_levels ∧
    lookupLevel (assignLevels (sortByStart dfDup)) "missing" = 0 :=
  stagger_keyed_by_name dfDup rowDup0 rowDup1 rowDup1 [rowDup0] [] "missing"
    rfl (by decide) (by simp) (by decide)

end PlasmidMap
